import Mathlib

/-!
Verification of the link-monitor data model (`app/models.py`) and of the
monitoring engine its specification describes. The schema (enums, entity
fields and their defaults, validation bounds) is embedded from the source;
the engine components absent from the repository (Status Tracker, Notifier
Dispatcher, Aggregator, Target Scheduler, Prober expectation check) are
modelled from the specification, as flagged in each doc comment.

Times are modelled as natural-number seconds; decimal quantities
(latencies, percentages) as rationals.
-/

namespace LinkMonitor

/-! ## Enumerations (from `app/models.py`) -/

/-- Type of monitoring target (`MonitorType` in `app/models.py`). -/
inductive MonitorType where
  | http | https | ping | tcp | udp
deriving DecidableEq, Repr

/-- Current status of a monitored item (`MonitorStatus` in `app/models.py`). -/
inductive MonitorStatus where
  | up | down | unknown | pending
deriving DecidableEq, Repr

/-- Type of notification (`NotificationType` in `app/models.py`). -/
inductive NotificationType where
  | status_change | down_alert | up_alert | timeout_alert
deriving DecidableEq, Repr

/-- Method of notification delivery (`NotificationMethod` in `app/models.py`). -/
inductive NotificationMethod where
  | email | in_app | webhook
deriving DecidableEq, Repr

/-! ## Probe results -/

/-- One check result. Field names follow `StatusCheck` in `app/models.py`
(`status`, `response_time_ms`, `status_code`, `checked_at`); per the spec the
Prober yields only UP or DOWN, so the observed status is carried as the
Boolean `ok` (`ok = true` means the check succeeded, status UP). -/
structure ProbeResult where
  ok : Bool
  response_time_ms : Option ℚ
  status_code : Option ℤ
  checked_at : ℕ
deriving DecidableEq, Repr

/-- The monitor status implied by a probe result: UP on success, DOWN on any
failure (spec §4.1: a probe yields UP or DOWN, never the other statuses). -/
def statusOf (ok : Bool) : MonitorStatus :=
  if ok then .up else .down

/-! ## Status Tracker -/

/-- Per-target runtime state: the runtime fields of `MonitoredItem` in
`app/models.py` (lines 78-81) with their source defaults
(`current_status = UNKNOWN`, `consecutive_failures = 0`, both timestamps
unset). -/
structure TrackerState where
  current_status : MonitorStatus
  consecutive_failures : ℕ
  last_check_at : Option ℕ
  last_status_change_at : Option ℕ
deriving DecidableEq, Repr

/-- Initial runtime state, from the field defaults in `app/models.py`. -/
def initTracker : TrackerState :=
  { current_status := .unknown
    consecutive_failures := 0
    last_check_at := none
    last_status_change_at := none }

/-- A status-transition event emitted to the Notifier Dispatcher. -/
structure TransitionEvent where
  changed_at : ℕ
  old_status : MonitorStatus
  new_status : MonitorStatus
deriving DecidableEq, Repr

/-- Modelled from the spec: the Status Tracker step (spec §4.3), absent from
the repository. Consumes one probe result: updates `consecutive_failures`
(reset to 0 on success, increment on failure), sets `last_check_at`, and, when
the status implied by the result differs from `current_status`, records
`last_status_change_at` and emits a transition event. -/
def trackStep (s : TrackerState) (r : ProbeResult) : TrackerState × Option TransitionEvent :=
  let newStatus := statusOf r.ok
  let cf := if r.ok then 0 else s.consecutive_failures + 1
  if newStatus = s.current_status then
    ({ s with consecutive_failures := cf, last_check_at := some r.checked_at }, none)
  else
    ({ current_status := newStatus
       consecutive_failures := cf
       last_check_at := some r.checked_at
       last_status_change_at := some r.checked_at },
     some ⟨r.checked_at, s.current_status, newStatus⟩)

/-- State reached after processing a sequence of probe results from the
initial state. -/
def trackRun (l : List ProbeResult) : TrackerState :=
  l.foldl (fun s r => (trackStep s r).1) initTracker

/-- Length of the trailing run of failed results in a sequence. -/
def trailingFailures (l : List ProbeResult) : ℕ :=
  (l.reverse.takeWhile (fun r => !r.ok)).length

/-! ## Creation and import schemas (from `app/models.py`) -/

/-- Schema for creating a new monitored item (`MonitoredItemCreate`,
`app/models.py` lines 215-227), with the source's field defaults. Integer
fields are `ℤ` since the schema admits arbitrary Python ints before
validation. -/
structure MonitoredItemCreate where
  name : String
  url : String
  monitor_type : MonitorType := .http
  check_interval_seconds : ℤ := 300
  timeout_seconds : ℤ := 30
  expected_status_code : Option ℤ := some 200
  expected_content : Option String := none
  tags : List String := []
  custom_headers : List (String × String) := []
  user_id : ℤ
deriving DecidableEq, Repr

/-- The validation declared on `MonitoredItemCreate`: `max_length` on the
string fields, `ge=60` on `check_interval_seconds`, `ge=1, le=300` on
`timeout_seconds` (`app/models.py` lines 218-224). -/
def MonitoredItemCreate.valid (m : MonitoredItemCreate) : Bool :=
  decide (m.name.length ≤ 200) &&
  decide (m.url.length ≤ 2000) &&
  decide (60 ≤ m.check_interval_seconds) &&
  decide (1 ≤ m.timeout_seconds) &&
  decide (m.timeout_seconds ≤ 300) &&
  (match m.expected_content with
   | none => true
   | some c => decide (c.length ≤ 1000))

/-- Schema for importing monitored items (`MonitoredItemImport`,
`app/models.py` lines 245-256), with the source's field defaults. -/
structure MonitoredItemImport where
  name : String
  url : String
  monitor_type : String := "http"
  check_interval_seconds : ℤ := 300
  timeout_seconds : ℤ := 30
  expected_status_code : Option ℤ := some 200
  expected_content : Option String := none
  tags : List String := []
  custom_headers : List (String × String) := []
deriving DecidableEq, Repr

/-- The validation declared on `MonitoredItemImport`: only `max_length` on
`name` and `url` (`app/models.py` lines 248-249); no bound is declared on
`check_interval_seconds` or `timeout_seconds` (lines 251-252). -/
def MonitoredItemImport.valid (m : MonitoredItemImport) : Bool :=
  decide (m.name.length ≤ 200) &&
  decide (m.url.length ≤ 2000)

/-- An import row whose numeric fields violate the creation bounds
(`check_interval_seconds = 10 < 60`, `timeout_seconds = 0 < 1`). -/
def badImportRow : MonitoredItemImport :=
  { name := "t", url := "x", check_interval_seconds := 10, timeout_seconds := 0 }

/-! ## Aggregator -/

/-- Daily uptime statistics (`UptimeRecord`, `app/models.py` lines 114-128):
the count, latency and percentage fields, with the source defaults
(all counts 0, average unset, percentage 0). -/
structure UptimeRecord where
  total_checks : ℕ
  successful_checks : ℕ
  failed_checks : ℕ
  average_response_time_ms : Option ℚ
  uptime_percentage : ℚ
deriving DecidableEq, Repr

/-- Round a rational to 2 decimal places. -/
def round2 (x : ℚ) : ℚ :=
  (round (100 * x) : ℤ) / 100

/-- Uptime percentage: successful over total checks, as a percentage rounded
to 2 decimals (spec §3; `uptime_percentage` in `app/models.py` line 126). -/
def uptimePercentage (succ total : ℕ) : ℚ :=
  round2 (100 * (succ : ℚ) / (total : ℚ))

/-- Aggregator working state for the current day: the record under
construction plus the running latency sum and count needed to recompute the
average. -/
structure AggState where
  record : UptimeRecord
  latency_sum : ℚ
  latency_count : ℕ
deriving DecidableEq, Repr

/-- Aggregator state at the start of a day, record fields at their source
defaults. -/
def initAgg : AggState :=
  { record := { total_checks := 0, successful_checks := 0, failed_checks := 0,
                average_response_time_ms := none, uptime_percentage := 0 }
    latency_sum := 0
    latency_count := 0 }

/-- Modelled from the spec: the Aggregator update (spec §4.5), absent from the
repository. On each probe result it increments the total and the
success/failure count, and recomputes the average latency and the uptime
percentage from the counts. -/
def applyResult (s : AggState) (r : ProbeResult) : AggState :=
  let total := s.record.total_checks + 1
  let succ := s.record.successful_checks + (if r.ok then 1 else 0)
  let fail := s.record.failed_checks + (if r.ok then 0 else 1)
  let lsum := s.latency_sum + (match r.response_time_ms with
    | some x => x
    | none => 0)
  let lcnt := s.latency_count + (match r.response_time_ms with
    | some _ => 1
    | none => 0)
  { record := { total_checks := total, successful_checks := succ, failed_checks := fail,
                average_response_time_ms := if lcnt = 0 then none else some (lsum / (lcnt : ℚ)),
                uptime_percentage := uptimePercentage succ total }
    latency_sum := lsum
    latency_count := lcnt }

/-- Fold a day's probe results into the day's aggregate. -/
def aggregateDay (l : List ProbeResult) : AggState :=
  l.foldl applyResult initAgg

/-- Aggregator state determined by day statistics alone: total count, success
count, failure count, latency sum, latency count. -/
def aggOf (total succ fail : ℕ) (lsum : ℚ) (lcnt : ℕ) : AggState :=
  { record := { total_checks := total, successful_checks := succ, failed_checks := fail,
                average_response_time_ms := if lcnt = 0 then none else some (lsum / (lcnt : ℚ)),
                uptime_percentage := uptimePercentage succ total }
    latency_sum := lsum
    latency_count := lcnt }

/-- A day with 8 successful checks followed by 2 failed ones. -/
def dayEightUpTwoDown : List ProbeResult :=
  List.replicate 8 ⟨true, none, none, 0⟩ ++ List.replicate 2 ⟨false, none, none, 0⟩

/-- Three results of one day, in timestamp order. -/
def permDayA : List ProbeResult :=
  [⟨true, some 5, some 200, 1⟩, ⟨false, none, some 500, 2⟩, ⟨true, some 7, some 200, 3⟩]

/-- The same three results, arriving out of timestamp order. -/
def permDayB : List ProbeResult :=
  [⟨false, none, some 500, 2⟩, ⟨true, some 7, some 200, 3⟩, ⟨true, some 5, some 200, 1⟩]

/-! ## Notifier Dispatcher -/

/-- Per-user notification policy (`NotificationSetting`, `app/models.py`
lines 157-171), with the source defaults (`is_enabled = True`,
`threshold_minutes = None`). -/
structure NotificationSetting where
  notification_type : NotificationType
  method : NotificationMethod
  is_enabled : Bool := true
  threshold_minutes : Option ℕ := none
  webhook_url : Option String := none
  custom_template : Option String := none
deriving DecidableEq, Repr

/-- Down-alert suppression window in seconds: `threshold_minutes * 60`, or 0
when no threshold is configured (spec §4.4: fire immediately if no threshold
is set). -/
def thresholdSeconds : Option ℕ → ℕ
  | none => 0
  | some m => m * 60

/-- Dispatcher state for one (user setting, target) pair: when the current
down episode started, and whether its down-alert has already been sent. -/
structure DispatchState where
  downSince : Option ℕ
  alerted : Bool
deriving DecidableEq, Repr

/-- Dispatcher state before any check: target not down, nothing sent. -/
def initDispatch : DispatchState :=
  { downSince := none, alerted := false }

/-- Modelled from the spec: the Notifier Dispatcher down-alert decision
(spec §4.4), absent from the repository. On a successful check the down
episode ends. On a failed check the episode start is recorded (kept if
already down), and the alert fires once per episode, as soon as the target
has remained DOWN for at least `thresholdSeconds` — immediately at the DOWN
transition when no threshold is configured. Returns the new state and
whether a down-alert is dispatched at this check. -/
def notifyStep (th : Option ℕ) (s : DispatchState) (r : ProbeResult) :
    DispatchState × Bool :=
  if r.ok then
    ({ downSince := none, alerted := false }, false)
  else
    let t0 := s.downSince.getD r.checked_at
    if s.alerted = false ∧ t0 + thresholdSeconds th ≤ r.checked_at then
      ({ downSince := some t0, alerted := true }, true)
    else
      ({ downSince := some t0, alerted := s.alerted }, false)

/-- Times at which down-alerts are dispatched while processing a sequence of
checks from a given dispatcher state. -/
def alertTimesFrom (th : Option ℕ) (s : DispatchState) : List ProbeResult → List ℕ
  | [] => []
  | r :: rest =>
    (if (notifyStep th s r).2 then [r.checked_at] else []) ++
      alertTimesFrom th (notifyStep th s r).1 rest

/-- Times at which down-alerts are dispatched over a run of checks, starting
from the initial dispatcher state. -/
def alertTimes (th : Option ℕ) (l : List ProbeResult) : List ℕ :=
  alertTimesFrom th initDispatch l

/-- A down run for the threshold scenario: DOWN at time 0, still DOWN at
300s, 700s and 900s. -/
def downRunTail : List ProbeResult :=
  [⟨false, none, none, 300⟩, ⟨false, none, none, 700⟩, ⟨false, none, none, 900⟩]

/-! ## Target Scheduler -/

/-- Scheduler view of one target: the current clock, the number of its probes
in flight, and its next due time. Initially idle and immediately due (spec
§4.2: due immediately if never checked). -/
structure SchedState where
  clock : ℕ
  inFlight : ℕ
  nextDue : ℕ
deriving DecidableEq, Repr

/-- Initial scheduler state for a target: no probe in flight, due at once. -/
def initSched : SchedState :=
  { clock := 0, inFlight := 0, nextDue := 0 }

/-- An observable scheduler action for one target: a probe dispatch or a
probe completion, each carrying its time. -/
inductive SchedEvent where
  | start (t : ℕ)
  | finish (t : ℕ)
deriving DecidableEq, Repr

/-- Modelled from the spec: the per-target scheduling rule (spec §4.2),
absent from the repository. A probe may start at `t` only when the target is
due and none of its probes is in flight (otherwise the scheduler skips
dispatching and retries next tick); a completion at `t` sets the next due
time to `t + interval`, i.e. completion time plus `check_interval_seconds`,
never from the fixed schedule. Time never runs backwards. -/
def schedStep (interval : ℕ) (s : SchedState) : SchedEvent → Option SchedState
  | .start t =>
    if s.clock ≤ t ∧ s.nextDue ≤ t ∧ s.inFlight = 0 then
      some { clock := t, inFlight := s.inFlight + 1, nextDue := s.nextDue }
    else none
  | .finish t =>
    if s.clock ≤ t ∧ 0 < s.inFlight then
      some { clock := t, inFlight := s.inFlight - 1, nextDue := t + interval }
    else none

/-- Run a sequence of scheduler events; `none` when some event is not
admissible. -/
def schedRun (interval : ℕ) (s : SchedState) : List SchedEvent → Option SchedState
  | [] => some s
  | e :: es => (schedStep interval s e).bind (fun s1 => schedRun interval s1 es)

/-! ## Monitored item defaults and the Prober expectation check -/

/-- A monitored target (`MonitoredItem`, `app/models.py` lines 65-87) with
the source's field defaults: `monitor_type = HTTP`,
`check_interval_seconds = 300`, `timeout_seconds = 30`,
`expected_status_code = 200`, `expected_content = None`,
`current_status = UNKNOWN`, `consecutive_failures = 0`, `is_active = True`. -/
structure MonitoredItem where
  name : String
  url : String
  monitor_type : MonitorType := .http
  check_interval_seconds : ℤ := 300
  timeout_seconds : ℤ := 30
  expected_status_code : Option ℤ := some 200
  expected_content : Option String := none
  current_status : MonitorStatus := .unknown
  last_check_at : Option ℕ := none
  last_status_change_at : Option ℕ := none
  consecutive_failures : ℕ := 0
  is_active : Bool := true
  tags : List String := []
  custom_headers : List (String × String) := []
  user_id : ℤ
deriving DecidableEq, Repr

/-- Whether `pat` occurs as a substring of `body`. -/
def containsSubstring (body pat : String) : Bool :=
  decide (pat.toList <:+: body.toList)

/-- Modelled from the spec: the Prober's expectation check (spec §4.1),
absent from the repository — the response code is compared to
`expected_status_code` if set, and a body excerpt to `expected_content` if
set (substring match); the check passes only if all configured expectations
pass. -/
def expectationOk (expCode : Option ℤ) (expContent : Option String)
    (code : ℤ) (body : String) : Bool :=
  (match expCode with
   | none => true
   | some ec => decide (code = ec)) &&
  (match expContent with
   | none => true
   | some c => containsSubstring body c)

end LinkMonitor

namespace LinkMonitor

/-! ## Theorems -/

lemma trackStep_cf (s : TrackerState) (r : ProbeResult) :
    ((trackStep s r).1).consecutive_failures =
      if r.ok then 0 else s.consecutive_failures + 1 := by
  by_cases h : statusOf r.ok = s.current_status <;> simp [trackStep, h]

lemma trailingFailures_append (l : List ProbeResult) (r : ProbeResult) :
    trailingFailures (l ++ [r]) =
      if r.ok then 0 else trailingFailures l + 1 := by
  unfold trailingFailures
  rw [List.reverse_append]
  simp only [List.reverse_singleton, List.singleton_append, List.takeWhile_cons]
  cases h : r.ok <;> simp [h]

lemma trackRun_cf (l : List ProbeResult) :
    (trackRun l).consecutive_failures = trailingFailures l := by
  induction l using List.reverseRecOn with
  | nil => rfl
  | append_singleton l r ih =>
    unfold trackRun at *
    rw [List.foldl_append, List.foldl_cons, List.foldl_nil,
      trailingFailures_append, trackStep_cf, ih]

/-- C1: for every sequence of probe results, `consecutive_failures` equals the
length of the trailing run of failures; it starts at the source default 0,
resets to 0 on any successful check and increments by 1 on each failure. -/
theorem consecutive_failures_eq_trailing_run
    (l : List ProbeResult) (s : TrackerState) (r : ProbeResult) :
    (trackRun l).consecutive_failures = trailingFailures l ∧
    initTracker.consecutive_failures = 0 ∧
    ((trackStep s r).1).consecutive_failures =
      (if r.ok then 0 else s.consecutive_failures + 1) :=
  ⟨trackRun_cf l, rfl, trackStep_cf s r⟩

/-- C2: processing one probe result emits a transition event iff the status
implied by the result differs from the current status beforehand, and on such
a transition `last_status_change_at` is set to the result's timestamp. -/
theorem transition_iff_status_differs (s : TrackerState) (r : ProbeResult) :
    (((trackStep s r).2).isSome = true ↔ statusOf r.ok ≠ s.current_status) ∧
    (statusOf r.ok ≠ s.current_status →
      ((trackStep s r).1).last_status_change_at = some r.checked_at) := by
  by_cases h : statusOf r.ok = s.current_status
  · exact ⟨by simp [trackStep, h], fun h' => absurd h h'⟩
  · exact ⟨by simp [trackStep, h], fun _ => by simp [trackStep, h]⟩

/-- Witness for C2 at a concrete state and result: an UP state receiving a
failed probe at time 5 emits an event and records the change time. -/
theorem transition_iff_status_differs_witness :
    (((trackStep ⟨.up, 0, some 3, some 1⟩ ⟨false, none, none, 5⟩).2).isSome = true) ∧
    ((trackStep ⟨.up, 0, some 3, some 1⟩ ⟨false, none, none, 5⟩).1).last_status_change_at
      = some 5 := by
  have h := transition_iff_status_differs ⟨.up, 0, some 3, some 1⟩ ⟨false, none, none, 5⟩
  exact ⟨h.1.mpr (by decide), h.2 (by decide)⟩

/-- C3 counterexample: an import row with `check_interval_seconds = 10` and
`timeout_seconds = 0`, both outside the creation bounds, passes the import
schema's validation, so the out-of-bounds input is not rejected on the import
path. -/
theorem import_accepts_out_of_bounds :
    badImportRow.valid = true ∧
    badImportRow.check_interval_seconds < 60 ∧
    badImportRow.timeout_seconds < 1 := by
  refine ⟨?_, by decide, by decide⟩
  decide

/-- C3 (amended): on the direct-creation path an input violating the bounds
(`check_interval_seconds ≥ 60`, `1 ≤ timeout_seconds ≤ 300`) fails
validation; the import schema checks only the string lengths, imposing no
bound on the numeric fields. -/
theorem create_rejects_out_of_bounds :
    (∀ m : MonitoredItemCreate,
        (m.check_interval_seconds < 60 ∨ m.timeout_seconds < 1 ∨ 300 < m.timeout_seconds) →
        m.valid = false) ∧
    (∀ m : MonitoredItemImport,
        m.valid = (decide (m.name.length ≤ 200) && decide (m.url.length ≤ 2000))) := by
  constructor
  · intro m h
    rcases h with h | h | h
    · have hc : ¬ (60 ≤ m.check_interval_seconds) := by omega
      simp [MonitoredItemCreate.valid, hc]
    · have hc : ¬ (1 ≤ m.timeout_seconds) := by omega
      simp [MonitoredItemCreate.valid, hc]
    · have hc : ¬ (m.timeout_seconds ≤ 300) := by omega
      simp [MonitoredItemCreate.valid, hc]
  · intro m
    rfl

/-- Witness for C3 (amended): a creation input with interval 10 seconds is
rejected by the creation validator. -/
theorem create_rejects_out_of_bounds_witness :
    MonitoredItemCreate.valid
      { name := "a", url := "b", check_interval_seconds := 10, user_id := 1 } = false :=
  create_rejects_out_of_bounds.1 _ (Or.inl (by decide))

lemma aggregateDay_pct (l : List ProbeResult) :
    (aggregateDay l).record.uptime_percentage =
      uptimePercentage (aggregateDay l).record.successful_checks
        (aggregateDay l).record.total_checks := by
  induction l using List.reverseRecOn with
  | nil =>
      show (0 : ℚ) = uptimePercentage 0 0
      norm_num [uptimePercentage, round2]
  | append_singleton l r ih =>
      rw [aggregateDay, List.foldl_append, List.foldl_cons, List.foldl_nil]
      rfl

/-- C4: `uptime_percentage` always equals successful over total checks as a
2-decimal-rounded percentage, and in particular a day with 8 successful out
of 10 checks yields exactly 80. -/
theorem uptime_percentage_recomputable (l : List ProbeResult) :
    ((aggregateDay l).record.uptime_percentage =
      round2 (100 * ((aggregateDay l).record.successful_checks : ℚ) /
        ((aggregateDay l).record.total_checks : ℚ))) ∧
    ((aggregateDay l).record.successful_checks = 8 →
      (aggregateDay l).record.total_checks = 10 →
      (aggregateDay l).record.uptime_percentage = 80) := by
  refine ⟨aggregateDay_pct l, fun h8 h10 => ?_⟩
  rw [aggregateDay_pct l, h8, h10]
  show uptimePercentage 8 10 = 80
  unfold uptimePercentage round2
  norm_num

/-- Witness for C4: the day with 8 successes then 2 failures has uptime
percentage exactly 80. -/
theorem uptime_percentage_recomputable_witness :
    (aggregateDay dayEightUpTwoDown).record.uptime_percentage = 80 :=
  (uptime_percentage_recomputable dayEightUpTwoDown).2 (by decide) (by decide)

lemma aggregateDay_eq_aggOf (l : List ProbeResult) :
    aggregateDay l =
      aggOf l.length (l.countP (fun r => r.ok)) (l.countP (fun r => !r.ok))
        ((l.filterMap (fun r => r.response_time_ms)).sum)
        ((l.filterMap (fun r => r.response_time_ms)).length) := by
  induction l using List.reverseRecOn with
  | nil =>
      simp [aggregateDay, initAgg, aggOf, uptimePercentage, round2]
  | append_singleton l r ih =>
      rw [aggregateDay, List.foldl_append, List.foldl_cons, List.foldl_nil, ← aggregateDay, ih]
      cases hok : r.ok <;> cases hms : r.response_time_ms <;>
        simp [applyResult, aggOf, hok, hms, List.countP_append, List.countP_cons,
          List.filterMap_append, Nat.add_comm]

/-- C9: the final daily record is invariant under reordering of the day's
results — any permutation of the result list aggregates to the same
`UptimeRecord`. -/
theorem aggregate_perm_invariant (l₁ l₂ : List ProbeResult) (h : l₁.Perm l₂) :
    (aggregateDay l₁).record = (aggregateDay l₂).record := by
  have hfm := h.filterMap (fun r => r.response_time_ms)
  rw [aggregateDay_eq_aggOf, aggregateDay_eq_aggOf, h.length_eq,
    h.countP_eq, h.countP_eq, hfm.length_eq, hfm.sum_eq]

/-- Witness for C9: two concrete orderings of the same three results give the
same daily record. -/
theorem aggregate_perm_invariant_witness :
    (aggregateDay permDayA).record = (aggregateDay permDayB).record :=
  aggregate_perm_invariant permDayA permDayB (by decide)

lemma alertTimesFrom_alerted (th : Option ℕ) (t0 : ℕ) (l : List ProbeResult)
    (h : ∀ r ∈ l, r.ok = false) :
    alertTimesFrom th ⟨some t0, true⟩ l = [] := by
  induction l with
  | nil => rfl
  | cons r rest ih =>
    have hr : r.ok = false := h r (List.mem_cons_self r rest)
    have hrest : ∀ x ∈ rest, x.ok = false := fun x hx => h x (List.mem_cons_of_mem r hx)
    simp [alertTimesFrom, notifyStep, hr, ih hrest]

lemma alertTimesFrom_down (th : Option ℕ) (T : ℕ) (l : List ProbeResult)
    (h : ∀ r ∈ l, r.ok = false) :
    alertTimesFrom th ⟨some T, false⟩ l =
      ((l.find? (fun r => decide (T + thresholdSeconds th ≤ r.checked_at))).map
        (fun r => r.checked_at)).toList := by
  induction l with
  | nil => rfl
  | cons r rest ih =>
    have hr : r.ok = false := h r (List.mem_cons_self r rest)
    have hrest : ∀ x ∈ rest, x.ok = false := fun x hx => h x (List.mem_cons_of_mem r hx)
    by_cases hq : T + thresholdSeconds th ≤ r.checked_at
    · simp [alertTimesFrom, notifyStep, hr, hq, alertTimesFrom_alerted th T rest hrest,
        List.find?_cons_of_pos]
    · simp [alertTimesFrom, notifyStep, hr, hq, ih hrest, List.find?_cons_of_neg]

/-- C5: with a 10-minute threshold, over a run of checks that goes DOWN at
time `T` and stays DOWN, every dispatched down-alert is at or after
`T + 600` seconds, the dispatched alerts are exactly the first check at or
after `T + 600` (if any), and as soon as some check qualifies exactly one
alert is dispatched. -/
theorem down_alert_threshold (T : ℕ) (c0 : ProbeResult) (rest : List ProbeResult)
    (h0 : c0.ok = false) (hT : c0.checked_at = T)
    (hrest : ∀ r ∈ rest, r.ok = false) :
    (∀ a ∈ alertTimes (some 10) (c0 :: rest), T + 600 ≤ a) ∧
    (alertTimes (some 10) (c0 :: rest) =
      (((c0 :: rest).find? (fun r => decide (T + 600 ≤ r.checked_at))).map
        (fun r => r.checked_at)).toList) ∧
    ((∃ r ∈ c0 :: rest, T + 600 ≤ r.checked_at) →
      ∃ a, alertTimes (some 10) (c0 :: rest) = [a] ∧ T + 600 ≤ a) := by
  have hth : thresholdSeconds (some 10) = 600 := rfl
  have hnq : ¬ (T + 600 ≤ c0.checked_at) := by omega
  have hchar : alertTimes (some 10) (c0 :: rest) =
      (((c0 :: rest).find? (fun r => decide (T + 600 ≤ r.checked_at))).map
        (fun r => r.checked_at)).toList := by
    have hdown := alertTimesFrom_down (some 10) T rest hrest
    rw [hth] at hdown
    simp only [alertTimes, alertTimesFrom, notifyStep, initDispatch, h0, hth]
    rw [List.find?_cons_of_neg _ (by simpa using hnq)]
    simpa [hT, hnq] using hdown
  refine ⟨?_, hchar, ?_⟩
  · intro a ha
    rw [hchar] at ha
    cases hf : (c0 :: rest).find? (fun r => decide (T + 600 ≤ r.checked_at)) with
    | none => simp [hf] at ha
    | some x =>
      have hx : T + 600 ≤ x.checked_at := by simpa using List.find?_some hf
      simp [hf] at ha
      omega
  · rintro ⟨r, hrmem, hrq⟩
    have hsome : ((c0 :: rest).find?
        (fun r => decide (T + 600 ≤ r.checked_at))).isSome := by
      rw [List.find?_isSome]
      exact ⟨r, hrmem, by simpa using hrq⟩
    obtain ⟨x, hx⟩ := Option.isSome_iff_exists.mp hsome
    refine ⟨x.checked_at, ?_, by simpa using List.find?_some hx⟩
    rw [hchar, hx]
    rfl

/-- Witness for C5: DOWN at 0 and still DOWN at 300s, 700s and 900s with a
10-minute threshold dispatches exactly one alert, at 700s. -/
theorem down_alert_threshold_witness :
    alertTimes (some 10) (⟨false, none, none, 0⟩ :: downRunTail) = [700] := by
  have h := down_alert_threshold 0 ⟨false, none, none, 0⟩ downRunTail rfl rfl (by decide)
  rw [h.2.1]
  rfl

lemma alertTimesFrom_up (th : Option ℕ) (pre l : List ProbeResult)
    (h : ∀ r ∈ pre, r.ok = true) :
    alertTimesFrom th initDispatch (pre ++ l) = alertTimesFrom th initDispatch l := by
  induction pre with
  | nil => rfl
  | cons r rest ih =>
    have hr : r.ok = true := h r (List.mem_cons_self r rest)
    have hrest : ∀ x ∈ rest, x.ok = true := fun x hx => h x (List.mem_cons_of_mem r hx)
    simp only [List.cons_append, alertTimesFrom, notifyStep, hr, if_true]
    simpa using ih hrest

/-- C6: with no threshold configured, a down-alert is dispatched at the very
check that first transitions the target to DOWN — after any run of
successful checks, the first failed check dispatches at its own time. -/
theorem down_alert_immediate (pre : List ProbeResult) (c : ProbeResult)
    (rest : List ProbeResult) (hpre : ∀ r ∈ pre, r.ok = true) (hc : c.ok = false) :
    ∃ tl, alertTimes none (pre ++ c :: rest) = c.checked_at :: tl := by
  refine ⟨alertTimesFrom none ⟨some c.checked_at, true⟩ rest, ?_⟩
  unfold alertTimes
  rw [alertTimesFrom_up none pre (c :: rest) hpre]
  simp [alertTimesFrom, notifyStep, initDispatch, thresholdSeconds, hc]

/-- Witness for C6: one successful check then a failure at time 2 dispatches
an alert at time 2. -/
theorem down_alert_immediate_witness :
    ∃ tl, alertTimes none
      ([⟨true, some 5, some 200, 1⟩] ++ ⟨false, none, none, 2⟩ :: []) = 2 :: tl :=
  down_alert_immediate [⟨true, some 5, some 200, 1⟩] ⟨false, none, none, 2⟩ []
    (by decide) rfl

lemma schedStep_start_some (i : ℕ) (s s1 : SchedState) (t : ℕ)
    (h : schedStep i s (.start t) = some s1) :
    s.clock ≤ t ∧ s.nextDue ≤ t ∧ s.inFlight = 0 ∧
      s1 = { clock := t, inFlight := s.inFlight + 1, nextDue := s.nextDue } := by
  simp only [schedStep] at h
  split at h
  · next hc => exact ⟨hc.1, hc.2.1, hc.2.2, (Option.some_injective _ h).symm⟩
  · exact absurd h (by simp)

lemma schedStep_finish_some (i : ℕ) (s s1 : SchedState) (t : ℕ)
    (h : schedStep i s (.finish t) = some s1) :
    s.clock ≤ t ∧ 0 < s.inFlight ∧
      s1 = { clock := t, inFlight := s.inFlight - 1, nextDue := t + i } := by
  simp only [schedStep] at h
  split at h
  · next hc => exact ⟨hc.1, hc.2, (Option.some_injective _ h).symm⟩
  · exact absurd h (by simp)

lemma schedRun_append (i : ℕ) (s : SchedState) (l1 l2 : List SchedEvent) :
    schedRun i s (l1 ++ l2) =
      (schedRun i s l1).bind (fun s1 => schedRun i s1 l2) := by
  induction l1 generalizing s with
  | nil => rfl
  | cons e es ih =>
    cases h : schedStep i s e with
    | none => simp [schedRun, h]
    | some s1 => simp [schedRun, h, ih s1]

lemma schedRun_inFlight_le (i : ℕ) (l : List SchedEvent) (s s1 : SchedState)
    (hs : s.inFlight ≤ 1) (h : schedRun i s l = some s1) : s1.inFlight ≤ 1 := by
  induction l generalizing s with
  | nil =>
    simp [schedRun] at h
    exact h ▸ hs
  | cons e es ih =>
    simp only [schedRun] at h
    obtain ⟨s2, hstep, hrun⟩ := Option.bind_eq_some.mp h
    refine ih s2 ?_ hrun
    cases e with
    | start t =>
      obtain ⟨-, -, hz, rfl⟩ := schedStep_start_some i s s2 t hstep
      simp [hz]
    | finish t =>
      obtain ⟨-, -, rfl⟩ := schedStep_finish_some i s s2 t hstep
      simp
      omega

/-- C7: per-target mutual exclusion — at every instant of a valid scheduler
trace (after any prefix of the event list) at most one probe for the target
is in flight, since a dispatch is skipped while the previous probe has not
completed. -/
theorem at_most_one_probe_in_flight (i : ℕ) (evs1 evs2 : List SchedEvent)
    (s : SchedState) (h : schedRun i initSched (evs1 ++ evs2) = some s) :
    ∃ s1, schedRun i initSched evs1 = some s1 ∧ s1.inFlight ≤ 1 := by
  rw [schedRun_append] at h
  obtain ⟨s1, h1, -⟩ := Option.bind_eq_some.mp h
  exact ⟨s1, h1, schedRun_inFlight_le i evs1 initSched s1 (by decide) h1⟩

/-- Witness for C7: in the trace start 0, finish 90, start 150 (interval 60)
the state after the first dispatch has one probe in flight. -/
theorem at_most_one_probe_in_flight_witness :
    ∃ s1, schedRun 60 initSched [.start 0] = some s1 ∧ s1.inFlight ≤ 1 :=
  at_most_one_probe_in_flight 60 [.start 0] [.finish 90, .start 150]
    ⟨150, 1, 150⟩ (by decide)

/-- C8: the next due time is computed from the completion time of the
previous probe plus the interval: whenever a probe starts at `S`, completes
at `C` and the next probe starts at `S2`, we get `C + i ≤ S2`, hence the gap
between consecutive probe starts is at least the probe duration plus the
interval — for a 60-second interval and a 90-second probe, at least 90 (in
fact 150), not 60. -/
theorem next_due_from_completion (i : ℕ) (pre : List SchedEvent)
    (S C S2 : ℕ) (s : SchedState)
    (h : schedRun i initSched (pre ++ [.start S, .finish C, .start S2]) = some s) :
    S ≤ C ∧ C + i ≤ S2 ∧ S + (C - S) + i ≤ S2 := by
  rw [schedRun_append] at h
  obtain ⟨s0, -, hrun⟩ := Option.bind_eq_some.mp h
  simp only [schedRun] at hrun
  obtain ⟨sa, hsa, hrun⟩ := Option.bind_eq_some.mp hrun
  obtain ⟨sb, hsb, hrun⟩ := Option.bind_eq_some.mp hrun
  obtain ⟨sc, hsc, -⟩ := Option.bind_eq_some.mp hrun
  obtain ⟨-, -, -, rfl⟩ := schedStep_start_some i s0 sa S hsa
  obtain ⟨hSC, -, rfl⟩ := schedStep_finish_some i _ sb C hsb
  obtain ⟨-, hdue, -, -⟩ := schedStep_start_some i _ sc S2 hsc
  simp at hSC hdue
  omega

/-- Witness for C8: interval 60, probe started at 0 and finished at 90, next
start at 150 — the gap is at least the 90-second duration plus the
interval. -/
theorem next_due_from_completion_witness :
    (0 : ℕ) ≤ 90 ∧ 90 + 60 ≤ 150 ∧ 0 + (90 - 0) + 60 ≤ 150 :=
  next_due_from_completion 60 [] 0 90 150 ⟨150, 1, 150⟩ (by decide)

/-- C10: a `MonitoredItem` or `MonitoredItemCreate` built without specifying
`expected_status_code` carries the default `some 200` (not `none`), so the
expectation check fails for any response code other than 200. -/
theorem expected_status_code_defaults_to_200
    (n u : String) (uid : ℤ) (code : ℤ) (body : String) (h : code ≠ 200) :
    ({ name := n, url := u, user_id := uid } : MonitoredItem).expected_status_code
      = some 200 ∧
    ({ name := n, url := u, user_id := uid } : MonitoredItemCreate).expected_status_code
      = some 200 ∧
    expectationOk (some 200) none code body = false := by
  refine ⟨rfl, rfl, ?_⟩
  simp [expectationOk, h]

/-- Witness for C10: a response code of 404 fails the default expectation
check. -/
theorem expected_status_code_defaults_to_200_witness :
    expectationOk (some 200) none 404 "" = false :=
  (expected_status_code_defaults_to_200 "a" "b" 1 404 "" (by decide)).2.2

end LinkMonitor
